import Mathlib

/-!
# ccradar — verification of the natural-language specification against the source

Shallow embedding of the ccradar repository (release radar for Claude Code):
`src/categories.py`, `src/classifier.py`, `src/state.py`, `src/github_client.py`,
`src/notifier.py`, `src/main.py`, `scripts/eval_prompt.py`, plus the Matcher/Scorer
component that the specification describes (modelled from the spec, as it is not
present in the provided source tree).

Python values that can be arbitrary JSON are modelled by `PyJson`; fallible
Python code is modelled with `Except PyErr`; external effects (the Gemini call,
`json.loads`, GitHub lookups, the file system) are passed in as explicit
parameters so that every definition is executable.
-/

/-- A JSON value as produced by Python's `json.loads`. -/
inductive PyJson where
  | null
  | bool (b : Bool)
  | num (n : Int)
  | str (s : String)
  | arr (xs : List PyJson)
  | obj (fields : List (String × PyJson))

/-- `d.get(key, dflt)` on a Python dict (modelled as an association list). -/
def pyGet (fields : List (String × PyJson)) (key : String) (dflt : PyJson) : PyJson :=
  match fields.find? (fun p => p.1 == key) with
  | some p => p.2
  | none => dflt

/-- `d.get(key)` on a Python dict: `None` when the key is absent. -/
def pyGetOpt (fields : List (String × PyJson)) (key : String) : Option PyJson :=
  (fields.find? (fun p => p.1 == key)).map (fun p => p.2)

/-- Python truthiness of a JSON value (`if summary:` etc.). -/
def pyTruthy : PyJson → Bool
  | .null => false
  | .bool b => b
  | .num n => n != 0
  | .str s => s != ""
  | .arr xs => !xs.isEmpty
  | .obj m => !m.isEmpty

/-- Extract the underlying string of a JSON string value; the claims under
consideration only involve string-valued fields, so non-string values (which
Python would carry through unchanged) are coerced to `""` at this modelling
boundary. -/
def pyAsStr : PyJson → String
  | .str s => s
  | _ => ""

/-- Is this JSON value a string? -/
def pyIsStr : PyJson → Bool
  | .str _ => true
  | _ => false

/-- Is this JSON value an object (Python dict)? -/
def pyIsObj : PyJson → Bool
  | .obj _ => true
  | _ => false

/-- Python `"\n".join(lines)`. -/
def joinNL : List String → String
  | [] => ""
  | [l] => l
  | l :: ls => l ++ "\n" ++ joinNL ls

/-- Python `s.strip()`: remove leading and trailing whitespace. (Implemented
over the character list so that it evaluates by kernel reduction.) -/
def pyStrip (s : String) : String :=
  ⟨((s.data.dropWhile Char.isWhitespace).reverse.dropWhile Char.isWhitespace).reverse⟩

/-- Python `s.startswith(pre)`. -/
def strStartsWith (s pre : String) : Bool :=
  pre.data.isPrefixOf s.data

/-- Helper for `splitNL`: split a character list at newlines (`acc` holds the
current segment, reversed). -/
def splitLinesAux : List Char → List Char → List (List Char)
  | [], acc => [acc.reverse]
  | c :: rest, acc =>
    if c == '\n' then acc.reverse :: splitLinesAux rest []
    else splitLinesAux rest (c :: acc)

/-- Python `s.split("\n")`. -/
def splitNL (s : String) : List String :=
  (splitLinesAux s.data []).map String.mk

/-- A Python exception escaping to the caller. -/
inductive PyErr where
  | attributeError
  | typeError
  | runtimeError (msg : String)
  | genai (code : Nat) (detail : String)
deriving DecidableEq

/-- One entry emitted through the `logging` module. -/
inductive LogEntry where
  | info (msg : String)
  | debug (msg : String)
  | error (msg : String)
  | warning (msg : String)
deriving DecidableEq

/-! ## src/categories.py -/

/-- `class Category(StrEnum)` from `src/categories.py`. -/
inductive Category where
  | FEATURE
  | IMPROVEMENT
  | BUGFIX
  | CHANGE
  | BREAKING
deriving DecidableEq

/-- The string value of each `StrEnum` member. -/
def Category.value : Category → String
  | .FEATURE => "Feature"
  | .IMPROVEMENT => "Improvement"
  | .BUGFIX => "Bugfix"
  | .CHANGE => "Change"
  | .BREAKING => "Breaking"

/-- Iteration order of `Category` (declaration order of the enum members). -/
def Category.all : List Category :=
  [.FEATURE, .IMPROVEMENT, .BUGFIX, .CHANGE, .BREAKING]

/-- `NOTIFY_CATEGORIES = frozenset(Category) - {Category.BUGFIX}` from
`src/categories.py` (membership is what matters; we keep declaration order). -/
def NOTIFY_CATEGORIES : List Category :=
  Category.all.filter (fun c => c != Category.BUGFIX)

/-- `Category(s)` — the `StrEnum` constructor; `none` models the `ValueError`
Python would raise for a string that is not a member value. -/
def Category.ofValue (s : String) : Option Category :=
  Category.all.find? (fun c => c.value == s)

/-- Python `category in NOTIFY_CATEGORIES` where `category` is an arbitrary
JSON value: a `StrEnum` member equals (and hashes like) its string value, so
the test succeeds exactly for the string value of a notify-worthy member. -/
def inNotifyCategories (v : PyJson) : Bool :=
  match v with
  | .str s => NOTIFY_CATEGORIES.any (fun c => c.value == s)
  | _ => false

/-! ## src/classifier.py -/

/-- `@dataclass class ClassifiedItem` from `src/classifier.py`. -/
structure ClassifiedItem where
  category : Category
  summary : String
  original : String := ""
deriving DecidableEq

/-- The code-fence stripping at the top of `_parse_response`: if the text
starts with three backticks, drop every line whose stripped form starts with
three backticks and re-join the rest with newlines. -/
def stripFences (raw : String) : String :=
  if strStartsWith raw "```" then
    joinNL ((splitNL raw).filter (fun l => !(strStartsWith (pyStrip l) "```")))
  else raw

/-- The `for item in items:` loop of `_parse_response`, for an `items` value
that is a JSON array. A non-dict element raises `AttributeError` (`item.get`
does not exist), which is modelled as `.error`. When the guard
`category in NOTIFY_CATEGORIES and summary` passes, `Category(category)`
cannot raise (the guard already established membership), so the `none` branch
of `Category.ofValue` below is unreachable. -/
def parseItemsLoop : List PyJson → Except PyErr (List ClassifiedItem)
  | [] => .ok []
  | .obj fields :: rest =>
    let category := pyGet fields "category" (.str "")
    let summary := pyGet fields "summary" (.str "")
    let original := pyGet fields "original" (.str "")
    match parseItemsLoop rest with
    | .error e => .error e
    | .ok tail =>
      if inNotifyCategories category && pyTruthy summary then
        match Category.ofValue (pyAsStr category) with
        | some cat => .ok (⟨cat, pyAsStr summary, pyAsStr original⟩ :: tail)
        | none => .ok tail
      else .ok tail
  | _ :: _ => .error .attributeError

/-- The body of `_parse_response` after `json.loads` succeeded with value
`data`: `data.get("items", [])` requires a dict (`AttributeError` otherwise);
iterating a non-list `items` value either raises (`TypeError` for
non-iterables, `AttributeError` once a non-dict element is reached) or — for
an empty string / empty dict — iterates zero times. -/
def parseData : PyJson → Except PyErr (List ClassifiedItem)
  | .obj fields =>
    match pyGet fields "items" (.arr []) with
    | .arr xs => parseItemsLoop xs
    | .str s => if s == "" then .ok [] else .error .attributeError
    | .obj m => if m.isEmpty then .ok [] else .error .attributeError
    | _ => .error .typeError
  | _ => .error .attributeError

/-- `_parse_response(raw_text)` from `src/classifier.py`. `loads` is the
`json.loads` oracle: `none` models `json.JSONDecodeError`, `some v` a
successful parse to the JSON value `v`. Returns the log entries emitted
together with the result (`.error` models an escaping exception). -/
def parse_response (loads : String → Option PyJson) (raw_text : String) :
    List LogEntry × Except PyErr (List ClassifiedItem) :=
  let text := stripFences raw_text
  match loads text with
  | none =>
    ([.error ("Failed to parse Gemini response as JSON: " ++ raw_text)], .ok [])
  | some data =>
    match parseData data with
    | .ok result =>
      ([.info ("Classified " ++ toString result.length ++ " relevant item(s)")], .ok result)
    | .error e => ([], .error e)

/-- `classify_release(body)` from `src/classifier.py`. The environment
(`GEMINI_API_KEY`, `GEMINI_MODEL`), the `json.loads` parser and the outcome of
the Gemini `generate_content` call are explicit parameters; `call` is
`.error (code, detail)` when the endpoint raises (e.g. a 429 rate limit) and
`.ok text` with the reply text otherwise. The source wraps the call in no
`try`/`except`, so an endpoint error propagates unchanged and unlogged. -/
def classify_release (apiKey : Option String) (modelNameEnv : Option String)
    (loads : String → Option PyJson) (call : Except (Nat × String) String)
    (body : String) : List LogEntry × Except PyErr (List ClassifiedItem) :=
  if pyStrip body == "" then
    ([.info "Empty release body, skipping classification"], .ok [])
  else if apiKey.getD "" == "" then
    ([], .error (.runtimeError "GEMINI_API_KEY environment variable is not set"))
  else
    let model_name := modelNameEnv.getD "gemini-3.0-flash"
    let preLogs : List LogEntry := [.info ("Using Gemini model: " ++ model_name)]
    match call with
    | .error e => (preLogs, .error (.genai e.1 e.2))
    | .ok responseText =>
      let raw_text := pyStrip responseText
      let parsed := parse_response loads raw_text
      (preLogs ++ [.debug ("Gemini response: " ++ raw_text)] ++ parsed.1, parsed.2)

/-! ## src/state.py -/

/-- The observable outcome of `os.path.exists` + `open` + `json.load` on the
state file, as seen by `get_last_version`. -/
inductive StateFileRead where
  | missing
  | osError
  | badJson
  | content (j : PyJson)

/-- `get_last_version()` from `src/state.py`: returns `None` for a missing
file and catches `json.JSONDecodeError` and `OSError`; for a successfully
parsed JSON value it evaluates `data.get("last_version")`, which raises
`AttributeError` when `data` is not a dict. -/
def get_last_version (f : StateFileRead) : Except PyErr (Option PyJson) :=
  match f with
  | .missing => .ok none
  | .osError => .ok none
  | .badJson => .ok none
  | .content j =>
    match j with
    | .obj fields => .ok (pyGetOpt fields "last_version")
    | _ => .error .attributeError

/-! ## src/github_client.py -/

/-- A release dict as returned by the GitHub API (the two keys the source
reads: `tag_name` and `body`; `release.get(k, "")` with a present key). -/
structure Release where
  tag_name : String
  body : String
deriving DecidableEq

/-- Python `s.lstrip("v")`: remove every leading `v`. -/
def stripLeadingV (s : String) : String :=
  ⟨s.data.dropWhile (fun c => c == 'v')⟩

/-- `get_release_version(release)` from `src/github_client.py`. -/
def get_release_version (r : Release) : String :=
  stripLeadingV r.tag_name

/-- `get_release_body(release)` from `src/github_client.py`. -/
def get_release_body (r : Release) : String :=
  r.body

/-- The `for release in releases: ... break ... append` loop of
`get_new_releases`: collect releases until the first whose stripped tag equals
`last_version` (exclusive). -/
def collectUntil (lastVersion : String) : List Release → List Release
  | [] => []
  | r :: rest =>
    if stripLeadingV r.tag_name == lastVersion then []
    else r :: collectUntil lastVersion rest

/-- `get_new_releases(last_version)` from `src/github_client.py`, with the
newest-first list returned by `fetch_releases()` passed in as `releases`. -/
def get_new_releases (lastVersion : Option String) (releases : List Release) :
    List Release :=
  match releases with
  | [] => []
  | first :: _ =>
    match lastVersion with
    | none => [first]
    | some lv => (collectUntil lv releases).reverse

/-- `get_release_by_tag(version)` from `src/github_client.py`: prepend `v`
unless already present, then look the tag up on GitHub (`lookup` is the
GitHub API: `none` models a 404). -/
def get_release_by_tag (lookup : String → Option Release) (version : String) :
    Option Release :=
  let tag := if strStartsWith version "v" then version else "v" ++ version
  lookup tag

/-! ## src/notifier.py -/

/-- `_SLACK_SECTION_MAX_LENGTH = 3000` from `src/notifier.py`. -/
def _SLACK_SECTION_MAX_LENGTH : Nat := 3000

/-- The running `current_len` maintained by `_build_section_blocks`:
`len(header) + 1` plus `len(line) + 1` for every accumulated line. The source
threads this value incrementally; we recompute it from `cur` at each step,
which is the same number. -/
def sectionWeight (header : String) (cur : List String) : Nat :=
  header.length + 1 + (cur.map (fun l => l.length + 1)).sum

/-- The text of one flushed section block: `f"{header}\n" + "\n".join(lines)`. -/
def mkSectionText (header : String) (cur : List String) : String :=
  header ++ "\n" ++ joinNL cur

/-- The item loop of `_build_section_blocks`, returning the groups of lines
flushed into successive blocks (`cur` is `current_lines`). -/
def sectionLoop (header : String) : List ClassifiedItem → List String → List (List String)
  | [], cur => if cur.isEmpty then [] else [cur]
  | item :: rest, cur =>
    let line := "  - " ++ item.summary
    let lineLen := line.length + 1
    if _SLACK_SECTION_MAX_LENGTH < sectionWeight header cur + lineLen ∧ cur ≠ [] then
      cur :: sectionLoop header rest [line]
    else
      sectionLoop header rest (cur ++ [line])

/-- `_build_section_blocks(header, items)` from `src/notifier.py`, projected
to the `text` field of the produced section blocks (the only other content of
a block is the fixed `type`/`mrkdwn` envelope). -/
def _build_section_blocks (header : String) (items : List ClassifiedItem) :
    List String :=
  (sectionLoop header items []).map (mkSectionText header)

/-- One Slack Block Kit block, projected to its kind and text. -/
inductive Block where
  | headerB (text : String)
  | sectionB (text : String)
  | contextB (text : String)
deriving DecidableEq

/-- `_build_blocks(version, items)` from `src/notifier.py`. -/
def _build_blocks (version : String) (items : List ClassifiedItem) : List Block :=
  let features := items.filter (fun i => i.category == Category.FEATURE)
  let improvements := items.filter (fun i => i.category == Category.IMPROVEMENT)
  let breakings := items.filter (fun i => i.category == Category.BREAKING)
  let changes := items.filter (fun i => i.category == Category.CHANGE)
  [Block.headerB ("Claude Code " ++ version ++ " - Release Radar")]
  ++ (if !breakings.isEmpty then
        (_build_section_blocks "*:warning: Breaking Changes*" breakings).map Block.sectionB
      else [])
  ++ (if !features.isEmpty then
        (_build_section_blocks "*:sparkles: New Features*" features).map Block.sectionB
      else [])
  ++ (if !improvements.isEmpty then
        (_build_section_blocks "*:arrow_up: Improvements*" improvements).map Block.sectionB
      else [])
  ++ (if !changes.isEmpty then
        (_build_section_blocks "*:arrows_counterclockwise: Changes*" changes).map Block.sectionB
      else [])
  ++ [Block.contextB ("<https://github.com/anthropics/claude-code/releases/tag/v"
        ++ version ++ "|View full release notes>")]

/-! ## src/main.py -/

/-- The parsed CLI arguments of `main()`. -/
structure Args where
  dry_run : Bool
  version : Option String
deriving DecidableEq

/-- The per-release loop and final watermark update of `main()`: processes the
releases in order (classification and notification are modelled as
succeeding — their results do not influence the watermark), so
`latest_version` ends as the version of the last release; the watermark is
saved when that string is non-empty (truthy) and dry-run is off, and is left
at `prior` otherwise. -/
def processReleases (args : Args) (releases : List Release) (prior : Option String) :
    Option String :=
  if releases.isEmpty then prior
  else
    match releases.getLast? with
    | none => prior
    | some r =>
      let latest := get_release_version r
      if latest ≠ "" ∧ args.dry_run = false then some latest else prior

/-- `main()` from `src/main.py`, reduced to its effect on the watermark.
`lookup` backs `get_release_by_tag`, `fetched` is the newest-first list behind
`fetch_releases()`, and `prior` is the state read by `get_last_version()`.
Returns the watermark after the run. -/
def mainRun (args : Args) (lookup : String → Option Release)
    (fetched : List Release) (prior : Option String) : Option String :=
  if args.version.getD "" ≠ "" then
    match get_release_by_tag lookup (args.version.getD "") with
    | none => prior
    | some release => processReleases args [release] prior
  else
    processReleases args (get_new_releases prior fetched) prior

/-! ## scripts/eval_prompt.py -/

/-- One row of `ground_truth.csv` as loaded by `load_ground_truth()`:
`{"text": ..., "category": ...}`. -/
structure GroundTruthEntry where
  text : String
  category : String
deriving DecidableEq

/-- `EVAL_RESULT_PATH = PROJECT_ROOT / "scripts" / "eval_result.json"` from
`scripts/eval_prompt.py` (project-relative). -/
def EVAL_RESULT_PATH : String := "scripts/eval_result.json"

/-- `fetch_releases_by_versions(version_list)` from `scripts/eval_prompt.py`:
one `get_release_by_tag` network lookup per version; not-found versions are
skipped. -/
def fetch_releases_by_versions (lookup : String → Option Release)
    (versions : List String) : List Release :=
  versions.filterMap (get_release_by_tag lookup)

/-- The release-body selection of `evaluate()` in `scripts/eval_prompt.py`:
the target versions are the keys of the loaded ground truth, the releases are
fetched live by tag, and for each fetched release with a non-blank body the
pair `(version, body)` records the body that is passed to `classify_release`.
-/
def evaluateClassifierInputs (lookup : String → Option Release)
    (groundTruth : List (String × List GroundTruthEntry)) :
    List (String × String) :=
  let targetVersions := groundTruth.map (fun p => p.1)
  let releases := fetch_releases_by_versions lookup targetVersions
  releases.filterMap (fun r =>
    let version := get_release_version r
    let body := get_release_body r
    if pyStrip body == "" then none
    else some (version, body))

/-- The release body the spec says the evaluation driver reconstructs
(spec §4.5: "reconstructs a release body by joining each row's original text
back into `- <text>` bullet lines"); stated from the spec's words, for
comparison with the source behavior above. -/
def specReconstructedBody (rows : List GroundTruthEntry) : String :=
  joinNL (rows.map (fun r => "- " ++ r.text))

/-- A minimal file-system model: association of path to file content;
`open(path, "w")` followed by a full write replaces the content at `path`. -/
def fsWrite (fs : List (String × String)) (path content : String) :
    List (String × String) :=
  (path, content) :: fs.filter (fun p => p.1 != path)

/-- Reading a path from the file-system model. -/
def fsRead (fs : List (String × String)) (path : String) : Option String :=
  (fs.find? (fun p => p.1 == path)).map (fun p => p.2)

/-- The results-artifact write at the end of `evaluate()`:
`with open(EVAL_RESULT_PATH, "w") as f: json.dump(output_data, f, ...)`.
The written path does not depend on the run (no timestamp is involved). -/
def writeEvalResult (fs : List (String × String)) (content : String) :
    List (String × String) :=
  fsWrite fs EVAL_RESULT_PATH content

/-! ## Matcher / Scorer (spec §4.4) -/

namespace Matcher

/-- Boolean substring test on character lists (`a in b` on Python strings). -/
def charsInfix (needle : List Char) : List Char → Bool
  | [] => needle.isEmpty
  | c :: rest => needle.isPrefixOf (c :: rest) || charsInfix needle rest

/-- `needle` occurs as a contiguous substring of `hay`. -/
def strContainsSub (hay needle : String) : Bool :=
  charsInfix needle.toList hay.toList

/-- Membership of a category string in the notify-worthy set, as the spec's
`truth_notify` / `gemini_notify` derivation (spec §3: "derive from category
membership in the notify-worthy set"). -/
def notifyWorthy (category : String) : Bool :=
  NOTIFY_CATEGORIES.any (fun c => c.value == category)

/-- `MatchResult` from spec §3. -/
structure MatchResult where
  truth_text : String
  truth_category : String
  truth_notify : Bool
  gemini_category : String
  gemini_notify : Bool
  notify_match : Bool
deriving DecidableEq

/-- A model item together with its position in the model-item index; the
index position is the item's identity for the consumption ("used") tracking. -/
structure IndexedItem where
  idx : Nat
  key : String
  item : ClassifiedItem
deriving DecidableEq

/-- Modelled from the spec: the Matcher/Scorer component of spec §4.4 is not
present in the provided source tree (the bundled evaluation driver only
compares per-category counts), so its index construction is modelled from the
spec's words: "Index model items by their normalized `original` text". The
normalization function itself (spec step 1: NFKC, trim, issue-reference
removal, whitespace collapse, lower-case) is taken as the parameter `norm`;
every theorem below holds for an arbitrary normalization. -/
def mkIndex (norm : String → String) (models : List ClassifiedItem) :
    List IndexedItem :=
  (models.enum).map (fun p => ⟨p.1, norm p.2.original, p.2⟩)

/-- Modelled from the spec: one `MatchResult` row (spec §4.4 steps 4-5): an
unmatched ground-truth item yields `gemini_category = ""`,
`gemini_notify = false`; `notify_match = (truth_notify == gemini_notify)`. -/
def mkResult (t : GroundTruthEntry) (m : Option IndexedItem) : MatchResult :=
  let tn := notifyWorthy t.category
  match m with
  | some e =>
    let gc := e.item.category.value
    { truth_text := t.text, truth_category := t.category, truth_notify := tn,
      gemini_category := gc, gemini_notify := notifyWorthy gc,
      notify_match := tn == notifyWorthy gc }
  | none =>
    { truth_text := t.text, truth_category := t.category, truth_notify := tn,
      gemini_category := "", gemini_notify := false,
      notify_match := tn == false }

/-- Modelled from the spec: the per-ground-truth-item search of spec §4.4
step 3 — first an exact match on the normalized key, consuming one unused
model item if present; otherwise a containment match accepting the first
unused item whose key is a substring of the ground-truth normalized text or
vice versa; already-consumed items (`used`) are skipped in both tiers. -/
def findFor (index : List IndexedItem) (used : List Nat) (tkey : String) :
    Option IndexedItem :=
  match index.find? (fun e => !used.contains e.idx && e.key == tkey) with
  | some e => some e
  | none =>
    index.find? (fun e =>
      !used.contains e.idx &&
        (strContainsSub tkey e.key || strContainsSub e.key tkey))

/-- Modelled from the spec: the main matching loop of spec §4.4 — for each
ground-truth item in input order, find a model item (exact tier preferred,
containment tier as fallback), record the `MatchResult` together with the
identity of the consumed model item, and mark that identity as used. -/
def matchLoop (norm : String → String) (index : List IndexedItem) :
    List GroundTruthEntry → List Nat → List (MatchResult × Option Nat)
  | [], _ => []
  | t :: ts, used =>
    match findFor index used (norm t.text) with
    | some e => (mkResult t (some e), some e.idx) :: matchLoop norm index ts (e.idx :: used)
    | none => (mkResult t none, none) :: matchLoop norm index ts used

/-- Modelled from the spec: `match(ground_truth_items, model_items)` of spec
§4.4, returning each `MatchResult` paired with the identity of the model item
it consumed (`none` when the row matched nothing). -/
def matchItems (norm : String → String) (truths : List GroundTruthEntry)
    (models : List ClassifiedItem) : List (MatchResult × Option Nat) :=
  matchLoop norm (mkIndex norm models) truths []

end Matcher

/-- The retention rule of the spec stated in its own words (spec §4.3 /
data-model §3), for comparison with `parseItemsLoop`: keep a reply entry iff
its `category` is one of the four notify-worthy categories (`Feature`,
`Improvement`, `Change`, `Breaking` — so `Bugfix`, unrecognized and missing
categories are dropped) and its `summary` is non-empty; `original` defaults
to the empty string when absent. -/
def specKeep (fields : List (String × PyJson)) : Option ClassifiedItem :=
  let c := pyAsStr (pyGet fields "category" (.str ""))
  let s := pyAsStr (pyGet fields "summary" (.str ""))
  let o := pyAsStr (pyGet fields "original" (.str ""))
  let cat? : Option Category :=
    if c = "Feature" then some .FEATURE
    else if c = "Improvement" then some .IMPROVEMENT
    else if c = "Change" then some .CHANGE
    else if c = "Breaking" then some .BREAKING
    else none
  match cat? with
  | some cat => if s ≠ "" then some ⟨cat, s, o⟩ else none
  | none => none

/-- The three reply-entry fields the classifier reads are strings (the shape
the model is instructed to produce; the claims quantify over such entries). -/
def strFields (fields : List (String × PyJson)) : Bool :=
  pyIsStr (pyGet fields "category" (.str "")) &&
  pyIsStr (pyGet fields "summary" (.str "")) &&
  pyIsStr (pyGet fields "original" (.str ""))

/-! ## Claim theorems -/

/-- C7: for a fetched newest-first release list whose tags (with leading `v`
stripped) are 1.0.3, 1.0.2, 1.0.1, 1.0.0, `get_new_releases` with
`last_version="1.0.0"` returns the releases 1.0.1, 1.0.2, 1.0.3 in
oldest-first order, excluding 1.0.0 and everything at or before it in the
fetched order. -/
theorem c7_get_new_releases_scenario :
    get_new_releases (some "1.0.0")
      [⟨"v1.0.3", "b3"⟩, ⟨"v1.0.2", "b2"⟩, ⟨"v1.0.1", "b1"⟩, ⟨"v1.0.0", "b0"⟩]
      = [⟨"v1.0.1", "b1"⟩, ⟨"v1.0.2", "b2"⟩, ⟨"v1.0.3", "b3"⟩] := by
  rfl

/-- C9 counterexample: a state file whose contents are the valid JSON text
`[]` (a list, not an object) makes `get_last_version` raise `AttributeError`
(`data.get` does not exist on a list) instead of returning `None`. -/
theorem c9_counterexample :
    get_last_version (.content (.arr [])) = .error .attributeError := by
  rfl

/-- C9 amended: `get_last_version` returns `None` for a missing state file,
an OS read error, or contents that are not valid JSON, and it returns without
raising whenever the file's JSON parses to an object; but file contents that
parse to a non-object JSON value raise `AttributeError` (see the
counterexample), so it is not exception-free for arbitrary contents. -/
theorem c9_amended (f : StateFileRead)
    (h : ∀ j, f = .content j → pyIsObj j = true) :
    (f = .missing ∨ f = .osError ∨ f = .badJson → get_last_version f = .ok none) ∧
    ∃ v, get_last_version f = .ok v := by
  constructor
  · rintro (rfl | rfl | rfl) <;> rfl
  · cases f with
    | missing => exact ⟨none, rfl⟩
    | osError => exact ⟨none, rfl⟩
    | badJson => exact ⟨none, rfl⟩
    | content j =>
      have hj := h j rfl
      cases j with
      | obj fields => exact ⟨pyGetOpt fields "last_version", rfl⟩
      | null => simp [pyIsObj] at hj
      | bool b => simp [pyIsObj] at hj
      | num n => simp [pyIsObj] at hj
      | str s => simp [pyIsObj] at hj
      | arr xs => simp [pyIsObj] at hj

/-- Witness for C9 amended, at the unreadable-contents input `badJson`. -/
theorem c9_witness :
    (StateFileRead.badJson = .missing ∨ StateFileRead.badJson = .osError ∨
        StateFileRead.badJson = .badJson →
      get_last_version .badJson = .ok none) ∧
    ∃ v, get_last_version .badJson = .ok v :=
  c9_amended .badJson (fun _ h => nomatch h)

/-- C2 counterexample: when the Gemini call raises a 429 rate-limit error,
`classify_release` emits no log entry recording the failure — the complete
log output of the call is the single model-name info line — while the error
itself propagates; the claim's "logs the failure with diagnostic detail" does
not hold on the code (there is no handler around the call at all). -/
theorem c2_counterexample :
    classify_release (some "key") none (fun _ => none)
      (.error (429, "RESOURCE_EXHAUSTED: quota exceeded")) "- item"
      = ([.info "Using Gemini model: gemini-3.0-flash"],
         .error (.genai 429 "RESOURCE_EXHAUSTED: quota exceeded")) := by
  rfl

/-- C2 amended: when the model endpoint raises a rate-limit (HTTP 429
equivalent) error, `classify_release` propagates the error to its caller
unchanged — it never returns an empty sequence instead of raising — but it
does not log the failure itself (no handler exists; the only log emitted
before the error escapes is the model-name info line). -/
theorem c2_amended (apiKey modelNameEnv : Option String)
    (loads : String → Option PyJson) (e : Nat × String) (body : String)
    (hbody : pyStrip body ≠ "") (hkey : apiKey.getD "" ≠ "") :
    classify_release apiKey modelNameEnv loads (.error e) body
      = ([.info ("Using Gemini model: " ++ modelNameEnv.getD "gemini-3.0-flash")],
         .error (.genai e.1 e.2)) := by
  have h1 : (pyStrip body == "") = false := beq_eq_false_iff_ne.mpr hbody
  have h2 : (apiKey.getD "" == "") = false := beq_eq_false_iff_ne.mpr hkey
  simp [classify_release, h1, h2]

/-- Witness for C2 amended at a concrete 429 outcome. -/
theorem c2_witness :
    classify_release (some "key") (some "gemini-3.0-flash") (fun _ => none)
      (.error (429, "quota")) "- x"
      = ([.info ("Using Gemini model: "
            ++ (some "gemini-3.0-flash").getD "gemini-3.0-flash")],
         .error (.genai (429, "quota").1 (429, "quota").2)) :=
  c2_amended (some "key") (some "gemini-3.0-flash") (fun _ => none)
    (429, "quota") "- x" (by decide) (by decide)

/-- C6 counterexample: two successive evaluation runs write to the same fixed
path `scripts/eval_result.json`; after the second run the artifact holds only
the second run's results and the first run's results are gone — the second
run's write does overwrite the first run's results file. -/
theorem c6_counterexample :
    fsRead (writeEvalResult (writeEvalResult [] "first run results")
        "second run results") EVAL_RESULT_PATH = some "second run results" ∧
    (writeEvalResult (writeEvalResult [] "first run results")
        "second run results").all (fun p => p.2 != "first run results") = true := by
  decide

/-- C6 amended: every evaluation run writes its results artifact to the same
fixed path `scripts/eval_result.json` (the path involves no timestamp), so a
later run's write replaces the prior run's results file at that path. -/
theorem c6_amended (fs : List (String × String)) (run1 run2 : String) :
    fsRead (writeEvalResult (writeEvalResult fs run1) run2) EVAL_RESULT_PATH
      = some run2 := by
  simp [writeEvalResult, fsWrite, fsRead, List.find?]

/-- C10: with the single-version override naming a release that exists, with
dry-run off (classification and notification succeeding), `main` saves that
release's version as the watermark regardless of the prior watermark value —
including when the named version is older than the stored watermark. -/
theorem c10_single_version_override (lookup : String → Option Release)
    (fetched : List Release) (prior : Option String) (v : String) (r : Release)
    (hv : v ≠ "") (hfound : get_release_by_tag lookup v = some r)
    (hver : get_release_version r = v) :
    mainRun ⟨false, some v⟩ lookup fetched prior = some v := by
  simp [mainRun, Option.getD, hv, hfound, processReleases, hver]

/-- Witness for C10: the stored watermark is 2.0.0 and the override names the
older existing release 1.0.5; the watermark moves backwards to 1.0.5. -/
theorem c10_witness :
    mainRun ⟨false, some "1.0.5"⟩
      (fun t => if t == "v1.0.5" then some ⟨"v1.0.5", "body text"⟩ else none)
      [] (some "2.0.0") = some "1.0.5" :=
  c10_single_version_override
    (fun t => if t == "v1.0.5" then some ⟨"v1.0.5", "body text"⟩ else none)
    [] (some "2.0.0") "1.0.5" ⟨"v1.0.5", "body text"⟩
    (by decide) (by decide) (by decide)

/-- C3 counterexample: a model reply whose text is the valid JSON `[]` — JSON
that parses but does not have the expected object shape — makes
`classify_release` raise `AttributeError` (a JSON list has no `.get`) instead
of returning an empty sequence; only `json.JSONDecodeError` is caught. -/
theorem c3_counterexample :
    classify_release (some "key") none (fun _ => some (.arr [])) (.ok "[]") "- item"
      = ([.info "Using Gemini model: gemini-3.0-flash",
          .debug "Gemini response: []"], .error .attributeError) := by
  rfl

/-- C3 amended: a reply that fails JSON parsing makes `_parse_response` log an
error and return an empty sequence without raising; but a reply whose JSON
parses to a non-object value raises `AttributeError` instead, so "never
raises" does not extend to every malformed shape (see the counterexample). -/
theorem c3_amended (loads : String → Option PyJson) (raw_text : String) :
    (loads (stripFences raw_text) = none →
      parse_response loads raw_text
        = ([.error ("Failed to parse Gemini response as JSON: " ++ raw_text)],
           .ok [])) ∧
    (∀ j, loads (stripFences raw_text) = some j → pyIsObj j = false →
      (parse_response loads raw_text).2 = .error .attributeError) := by
  constructor
  · intro h
    simp [parse_response, h]
  · intro j hj hobj
    cases j with
    | obj fields => simp [pyIsObj] at hobj
    | null => simp [parse_response, hj, parseData]
    | bool b => simp [parse_response, hj, parseData]
    | num n => simp [parse_response, hj, parseData]
    | str s => simp [parse_response, hj, parseData]
    | arr xs => simp [parse_response, hj, parseData]

/-- Witness for C3 amended: the invalid-JSON reply `not valid json at all`
returns an empty sequence after an error log, and the wrong-shape reply `[]`
raises. -/
theorem c3_witness :
    parse_response (fun _ => none) "not valid json at all"
      = ([.error ("Failed to parse Gemini response as JSON: "
            ++ "not valid json at all")], .ok []) ∧
    (parse_response (fun _ => some (.arr [])) "[]").2 = .error .attributeError :=
  ⟨(c3_amended (fun _ => none) "not valid json at all").1 rfl,
   (c3_amended (fun _ => some (.arr [])) "[]").2 (.arr []) rfl rfl⟩

/-- The item loop of `_parse_response` retains exactly the entries the spec's
retention rule (`specKeep`) retains, for entries whose three fields are
strings. -/
theorem parseItemsLoop_eq_spec (entries : List (List (String × PyJson)))
    (hwf : entries.all strFields = true) :
    parseItemsLoop (entries.map PyJson.obj) = .ok (entries.filterMap specKeep) := by
  induction entries with
  | nil => rfl
  | cons e es ih =>
    rw [List.all_cons, Bool.and_eq_true] at hwf
    obtain ⟨he, hes⟩ := hwf
    simp only [strFields, Bool.and_eq_true] at he
    obtain ⟨⟨hc, hs⟩, ho⟩ := he
    have ihe := ih hes
    obtain ⟨c, hcv⟩ : ∃ c, pyGet e "category" (.str "") = .str c := by
      cases hx : pyGet e "category" (.str "") <;> rw [hx] at hc <;>
        simp [pyIsStr] at hc ⊢
    obtain ⟨s, hsv⟩ : ∃ s, pyGet e "summary" (.str "") = .str s := by
      cases hx : pyGet e "summary" (.str "") <;> rw [hx] at hs <;>
        simp [pyIsStr] at hs ⊢
    obtain ⟨o, hov⟩ : ∃ o, pyGet e "original" (.str "") = .str o := by
      cases hx : pyGet e "original" (.str "") <;> rw [hx] at ho <;>
        simp [pyIsStr] at ho ⊢
    simp only [List.map_cons, parseItemsLoop, hcv, hsv, hov, ihe, List.filterMap_cons]
    by_cases hF : c = "Feature" <;> by_cases hI : c = "Improvement" <;>
      by_cases hC : c = "Change" <;> by_cases hB : c = "Breaking" <;>
      by_cases h2 : s = "" <;>
      simp_all [specKeep, inNotifyCategories, NOTIFY_CATEGORIES, Category.all,
        Category.value, Category.ofValue, pyAsStr, pyTruthy]
    intro h
    rcases h with h | h | h | h
    · exact absurd h.symm hF
    · exact absurd h.symm hI
    · exact absurd h.symm hC
    · exact absurd h.symm hB

/-- C1: for every model reply whose JSON parses to an object with an `items`
list (of string-field entries), `classify_release`'s `_parse_response` returns
exactly the entries whose `category` is one of the four notify-worthy
categories and whose `summary` is non-empty — every `Bugfix`, unrecognized,
missing-category or empty-summary entry is dropped, and a retained entry's
`original` defaults to the empty string (the `specKeep` rule). -/
theorem c1_parse_keeps_exactly_notify_worthy (loads : String → Option PyJson)
    (raw_text : String) (fields : List (String × PyJson))
    (entries : List (List (String × PyJson)))
    (hload : loads (stripFences raw_text) = some (.obj fields))
    (hitems : pyGet fields "items" (.arr []) = .arr (entries.map PyJson.obj))
    (hwf : entries.all strFields = true) :
    (parse_response loads raw_text).2 = .ok (entries.filterMap specKeep) := by
  simp [parse_response, hload, parseData, hitems, parseItemsLoop_eq_spec entries hwf]

/-- Witness for C1, on a reply mixing all the claim's cases: a kept `Feature`
entry with `original` absent (defaults to `""`), a dropped `Bugfix`, a dropped
empty-summary `Improvement`, a dropped unrecognized category, a dropped
missing-category entry, and a kept `Change`. -/
theorem c1_witness :
    (parse_response
      (fun _ => some (.obj [("items", .arr (
        [[("category", PyJson.str "Feature"), ("summary", PyJson.str "adds dark mode")],
         [("category", PyJson.str "Bugfix"), ("summary", PyJson.str "fixes crash"),
          ("original", PyJson.str "Fixed crash")],
         [("category", PyJson.str "Improvement"), ("summary", PyJson.str "")],
         [("category", PyJson.str "Weird"), ("summary", PyJson.str "odd")],
         [("summary", PyJson.str "no category")],
         [("category", PyJson.str "Change"), ("summary", PyJson.str "moved config"),
          ("original", PyJson.str "Changed config location")]].map PyJson.obj))]))
      "reply").2
      = .ok ([[("category", PyJson.str "Feature"), ("summary", PyJson.str "adds dark mode")],
         [("category", PyJson.str "Bugfix"), ("summary", PyJson.str "fixes crash"),
          ("original", PyJson.str "Fixed crash")],
         [("category", PyJson.str "Improvement"), ("summary", PyJson.str "")],
         [("category", PyJson.str "Weird"), ("summary", PyJson.str "odd")],
         [("summary", PyJson.str "no category")],
         [("category", PyJson.str "Change"), ("summary", PyJson.str "moved config"),
          ("original", PyJson.str "Changed config location")]].filterMap specKeep) :=
  c1_parse_keeps_exactly_notify_worthy _ "reply" _ _ rfl rfl rfl

/-- C5 counterexample: with ground truth for version 1.0.0 present, the body
the evaluation driver passes to the classifier is the body of the release it
fetched live by tag — not the `- <text>` reconstruction of the ground-truth
rows that the claim describes. -/
theorem c5_counterexample :
    evaluateClassifierInputs
      (fun t => if t == "v1.0.0" then
          some ⟨"v1.0.0", "totally different body"⟩ else none)
      [("1.0.0", [⟨"Added dark mode", "Feature"⟩])]
      = [("1.0.0", "totally different body")] ∧
    specReconstructedBody [⟨"Added dark mode", "Feature"⟩] = "- Added dark mode" ∧
    "totally different body" ≠ "- Added dark mode" := by
  refine ⟨by rfl, by rfl, by decide⟩

/-- C5 amended: for every version present in the ground truth, `evaluate`
fetches the release live by tag through `get_release_by_tag` (a network call
per version) and every body it passes to the classification client is the
body of such a fetched release; it never reconstructs the body from the
ground-truth rows. -/
theorem c5_amended (lookup : String → Option Release)
    (groundTruth : List (String × List GroundTruthEntry))
    (p : String × String) (hp : p ∈ evaluateClassifierInputs lookup groundTruth) :
    ∃ v ∈ groundTruth.map (fun q => q.1), ∃ r : Release,
      get_release_by_tag lookup v = some r ∧
      p.1 = get_release_version r ∧ p.2 = get_release_body r := by
  simp only [evaluateClassifierInputs, fetch_releases_by_versions] at hp
  rw [List.mem_filterMap] at hp
  obtain ⟨r, hr, hpr⟩ := hp
  rw [List.mem_filterMap] at hr
  obtain ⟨v, hv, hvr⟩ := hr
  refine ⟨v, hv, r, hvr, ?_⟩
  split at hpr
  · exact absurd hpr (by simp)
  · have := Option.some.inj hpr
    constructor
    · rw [← this]
    · rw [← this]

/-- Witness for C5 amended, at the concrete fetched release of the
counterexample scenario. -/
theorem c5_witness :
    ∃ v ∈ ([("1.0.0", [⟨"Added dark mode", "Feature"⟩])] :
        List (String × List GroundTruthEntry)).map (fun q => q.1),
      ∃ r : Release,
        get_release_by_tag
          (fun t => if t == "v1.0.0" then some ⟨"v1.0.0", "B"⟩ else none) v
          = some r ∧
        ("1.0.0", "B").1 = get_release_version r ∧
        ("1.0.0", "B").2 = get_release_body r :=
  c5_amended (fun t => if t == "v1.0.0" then some ⟨"v1.0.0", "B"⟩ else none)
    [("1.0.0", [⟨"Added dark mode", "Feature"⟩])] ("1.0.0", "B") (by decide)

/-- Length of a newline-join: one less than the sum of (line length + 1). -/
theorem joinNL_length (l : String) (ls : List String) :
    (joinNL (l :: ls)).length + 1 = ((l :: ls).map (fun x => x.length + 1)).sum := by
  induction ls generalizing l with
  | nil => simp [joinNL]
  | cons l2 ls2 ih =>
    have h := ih l2
    have hnl : ("\n" : String).length = 1 := rfl
    simp only [joinNL, String.length_append, List.map_cons, List.sum_cons, hnl] at h ⊢
    omega

/-- A flushed block's text length is one less than the `current_len` value the
source maintains for its lines (`sectionWeight`). -/
theorem mkSectionText_length (header l : String) (ls : List String) :
    (mkSectionText header (l :: ls)).length + 1 = sectionWeight header (l :: ls) := by
  have h := joinNL_length l ls
  have hnl : ("\n" : String).length = 1 := rfl
  simp only [mkSectionText, sectionWeight, String.length_append, hnl]
  omega

/-- Every group of lines flushed by the section loop is non-empty and its
`current_len` stays within the Slack budget, provided every single item line
fits the budget on its own and the incoming accumulator does. -/
theorem sectionLoop_bound (header : String) :
    ∀ (items : List ClassifiedItem) (cur : List String),
      (∀ i ∈ items, header.length + i.summary.length + 6 ≤ 3000) →
      (cur ≠ [] → sectionWeight header cur ≤ 3000) →
      ∀ g ∈ sectionLoop header items cur, g ≠ [] ∧ sectionWeight header g ≤ 3000 := by
  intro items
  induction items with
  | nil =>
    intro cur _ hcur g hg
    cases cur with
    | nil => simp [sectionLoop] at hg
    | cons a as =>
      simp [sectionLoop] at hg
      subst hg
      exact ⟨by simp, hcur (by simp)⟩
  | cons item rest ih =>
    intro cur hbudget hcur g hg
    have hitem := hbudget item (List.mem_cons_self _ _)
    have hrest : ∀ i ∈ rest, header.length + i.summary.length + 6 ≤ 3000 :=
      fun i hi => hbudget i (List.mem_cons_of_mem _ hi)
    have hd : ("  - " : String).length = 4 := rfl
    have hline : ("  - " ++ item.summary).length = 4 + item.summary.length := by
      simp [String.length_append, hd]
    simp only [sectionLoop, _SLACK_SECTION_MAX_LENGTH] at hg
    split at hg
    · rename_i hcond
      rcases List.mem_cons.mp hg with rfl | hg2
      · exact ⟨hcond.2, hcur hcond.2⟩
      · refine ih ["  - " ++ item.summary] hrest ?_ g hg2
        intro _
        simp only [sectionWeight, List.map_cons, List.map_nil, List.sum_cons,
          List.sum_nil, hline]
        omega
    · rename_i hcond
      refine ih (cur ++ ["  - " ++ item.summary]) hrest ?_ g hg
      intro _
      have hw : sectionWeight header (cur ++ ["  - " ++ item.summary])
          = sectionWeight header cur + (("  - " ++ item.summary).length + 1) := by
        simp only [sectionWeight, List.map_append, List.sum_append, List.map_cons,
          List.map_nil, List.sum_cons, List.sum_nil]
        omega
      rcases Decidable.em (cur = []) with hnil | hnonnil
      · subst hnil
        simp only [sectionWeight, List.map_nil, List.sum_nil] at hw ⊢
        omega
      · have hle : sectionWeight header cur + (("  - " ++ item.summary).length + 1) ≤ 3000 := by
          by_contra hlt
          exact hcond ⟨by omega, hnonnil⟩
        omega

/-- The lines flushed across all blocks, read in block order, are exactly the
item lines in input order (prefixed by the incoming accumulator). -/
theorem sectionLoop_flatten (header : String) :
    ∀ (items : List ClassifiedItem) (cur : List String),
      (sectionLoop header items cur).flatten
        = cur ++ items.map (fun i => "  - " ++ i.summary) := by
  intro items
  induction items with
  | nil =>
    intro cur
    cases cur <;> simp [sectionLoop]
  | cons item rest ih =>
    intro cur
    simp only [sectionLoop]
    split
    · simp [ih]
    · simp [ih]

/-- C8 amended: every per-category section block built by the notifier has
text of length at most 3000 characters provided each single item line fits
the budget on its own (`header length + summary length + 6 ≤ 3000` — a single
oversized item yields a block exceeding the cap, see the counterexample); and
unconditionally, the item lines read across the blocks in order preserve the
input item order. -/
theorem c8_amended (header : String) (items : List ClassifiedItem)
    (hbudget : ∀ i ∈ items, header.length + i.summary.length + 6 ≤ 3000) :
    ((_build_section_blocks header items).all (fun t => t.length ≤ 3000) = true) ∧
    (sectionLoop header items []).flatten = items.map (fun i => "  - " ++ i.summary) := by
  constructor
  · rw [List.all_eq_true]
    intro t ht
    simp only [_build_section_blocks, List.mem_map] at ht
    obtain ⟨g, hg, rfl⟩ := ht
    obtain ⟨hne, hw⟩ :=
      sectionLoop_bound header items [] hbudget (fun h => absurd rfl h) g hg
    cases g with
    | nil => exact absurd rfl hne
    | cons l ls =>
      have hl := mkSectionText_length header l ls
      simp only [decide_eq_true_eq]
      omega
  · simpa using sectionLoop_flatten header items []

/-- Witness for C8 amended, on a two-item Feature section with short
summaries. -/
theorem c8_witness :
    ((_build_section_blocks "*:sparkles: New Features*"
        [⟨Category.FEATURE, "short summary", ""⟩,
         ⟨Category.CHANGE, "another one", ""⟩]).all
      (fun t => t.length ≤ 3000) = true) ∧
    (sectionLoop "*:sparkles: New Features*"
        [⟨Category.FEATURE, "short summary", ""⟩,
         ⟨Category.CHANGE, "another one", ""⟩] []).flatten
      = [⟨Category.FEATURE, "short summary", ""⟩,
         (⟨Category.CHANGE, "another one", ""⟩ : ClassifiedItem)].map
          (fun i => "  - " ++ i.summary) :=
  c8_amended "*:sparkles: New Features*"
    [⟨Category.FEATURE, "short summary", ""⟩, ⟨Category.CHANGE, "another one", ""⟩]
    (by decide)

/-- Starting from an empty accumulator, a single item always lands in exactly
one block containing exactly its line (the flush guard requires a non-empty
accumulator, so no flush can occur first). -/
theorem sectionLoop_single (header : String) (item : ClassifiedItem) :
    sectionLoop header [item] [] = [["  - " ++ item.summary]] := by
  simp [sectionLoop]

/-- C8 counterexample: a single item whose summary is 3000 characters long
produces one section block of text length 3030 — the notifier does not cap a
block at 3000 characters when a single item line already exceeds the budget
(the flush guard requires `current_lines` to be non-empty). -/
theorem c8_counterexample :
    (_build_section_blocks "*:sparkles: New Features*"
        [⟨Category.FEATURE, String.mk (List.replicate 3000 'a'), ""⟩]).all
      (fun t => t.length ≤ 3000) = false := by
  have hbig : (String.mk (List.replicate 3000 'a')).length = 3000 := by
    show (List.replicate 3000 'a').length = 3000
    rw [List.length_replicate]
  have hh : ("*:sparkles: New Features*" : String).length = 25 := rfl
  have hd : ("  - " : String).length = 4 := rfl
  have hnl : ("\n" : String).length = 1 := rfl
  have hloop := sectionLoop_single "*:sparkles: New Features*"
      ⟨Category.FEATURE, String.mk (List.replicate 3000 'a'), ""⟩
  simp only [_build_section_blocks, hloop, List.map_cons, List.map_nil,
    mkSectionText, joinNL, List.all_cons, List.all_nil, Bool.and_true]
  rw [decide_eq_false]
  simp only [String.length_append, hh, hd, hnl, hbig]
  omega

/-- Whatever `findFor` returns was not yet consumed: both tiers filter on
`!used.contains e.idx`. -/
theorem findFor_not_used {index : List Matcher.IndexedItem} {used : List Nat}
    {tkey : String} {e : Matcher.IndexedItem}
    (h : Matcher.findFor index used tkey = some e) :
    used.contains e.idx = false := by
  unfold Matcher.findFor at h
  cases hx : index.find? (fun e => !used.contains e.idx && e.key == tkey) with
  | some e2 =>
    rw [hx] at h
    cases h
    have hp := List.find?_some hx
    rw [Bool.and_eq_true] at hp
    simpa using hp.1
  | none =>
    rw [hx] at h
    have hp := List.find?_some h
    rw [Bool.and_eq_true] at hp
    simpa using hp.1

/-- The consumed identities recorded by the matching loop avoid the incoming
`used` set and contain no repeats. -/
theorem matchLoop_consumed_nodup (norm : String → String)
    (index : List Matcher.IndexedItem) :
    ∀ (truths : List GroundTruthEntry) (used : List Nat),
      ((Matcher.matchLoop norm index truths used).filterMap (fun p => p.2)).Nodup ∧
      ∀ i ∈ (Matcher.matchLoop norm index truths used).filterMap (fun p => p.2),
        used.contains i = false := by
  intro truths
  induction truths with
  | nil => intro used; simp [Matcher.matchLoop]
  | cons t ts ih =>
    intro used
    simp only [Matcher.matchLoop]
    cases hf : Matcher.findFor index used (norm t.text) with
    | none =>
      simp only [List.filterMap_cons]
      exact ih used
    | some e =>
      have he := findFor_not_used hf
      obtain ⟨ihn, ihm⟩ := ih (e.idx :: used)
      simp only [List.filterMap_cons]
      constructor
      · rw [List.nodup_cons]
        refine ⟨fun hmem => ?_, ihn⟩
        have := ihm e.idx hmem
        simp at this
      · intro i hi
        rcases List.mem_cons.mp hi with rfl | hi2
        · exact he
        · have := ihm i hi2
          simp only [List.contains_cons, Bool.or_eq_false_iff] at this
          exact this.2

/-- C4 (modelled from the spec, §4.4): the Matcher never double-assigns one
model item to two ground-truth items — across the output sequence, the
recorded consumed-model-item identities contain no repeats, for every
normalization, ground-truth list and model-item list, regardless of whether a
pairing was made at the exact tier or the containment tier. -/
theorem c4_matcher_no_double_assign (norm : String → String)
    (truths : List GroundTruthEntry) (models : List ClassifiedItem) :
    ((Matcher.matchItems norm truths models).filterMap (fun p => p.2)).Nodup :=
  (matchLoop_consumed_nodup norm (Matcher.mkIndex norm models) truths []).1
